import Mathlib

/-!
Shallow embedding of `packages/react-storefront/src/Image.js`: the image-URL
optimization function `createOptimizedSrc` and the visibility-driven load
state machine of the `Image` component.

JavaScript values inspected by the embedded code are modelled by `JSVal`;
JavaScript objects by association lists in insertion order (`JSObj`), with
operations mirroring property read, property assignment and `Object.keys`.
-/

/-- The JavaScript values that flow through the embedded code. -/
inductive JSVal where
  | undefined
  | null
  | bool (b : Bool)
  | num (n : Int)
  | str (s : String)
deriving DecidableEq, Repr

/-- JavaScript truthiness for `JSVal`. -/
def truthy : JSVal → Bool
  | .undefined => false
  | .null => false
  | .bool b => b
  | .num n => n != 0
  | .str s => s != ""

/-- JavaScript `a || b`: evaluates to `a` when `a` is truthy, else to `b`. -/
def jsOr (a b : JSVal) : JSVal := if truthy a then a else b

/-- A JavaScript object as an association list of own properties, kept in
insertion order (the order `Object.keys` reports for string keys). -/
abbrev JSObj := List (String × JSVal)

/-- First binding of `key`, if any. -/
def getOwn : JSObj → String → Option JSVal
  | [], _ => none
  | (k, v) :: rest, key => if k = key then some v else getOwn rest key

/-- Property read `o.key`; a missing property reads as `undefined`. -/
def getProp (o : JSObj) (key : String) : JSVal := (getOwn o key).getD .undefined

/-- Whether `key` is an own property of `o`. -/
def hasKey (o : JSObj) (key : String) : Bool := (getOwn o key).isSome

/-- Overwrite the binding of `key` with `v`, leaving other bindings alone. -/
def replaceEntry (key : String) (v : JSVal) (p : String × JSVal) :
    String × JSVal :=
  if p.1 = key then (key, v) else p

/-- Property assignment `o.key = v`: overwrites the existing binding in place
when present, otherwise appends a new binding at the end. -/
def setKey (o : JSObj) (key : String) (v : JSVal) : JSObj :=
  if hasKey o key then o.map (replaceEntry key v)
  else o ++ [(key, v)]

/-- `Object.keys o`. -/
def objKeys (o : JSObj) : List String := o.map (fun p => p.1)

/-- Faithful embedding of `createOptimizedSrc` (Image.js lines 88-99),
tracking the possibly mutated `options` object in the second component.

Line 91, `if (options.format) options.fmt = options.format`, mutates the
caller object whenever `options.format` is truthy (the original `format`
key is never deleted).

Line 94, `const options = { ...options, img: src }`, declares a block-scoped
`options` whose initializer reads that same binding while it is still in its
temporal dead zone, so whenever the (translated) object has at least one own
key the function throws a `ReferenceError` instead of building
`{optimizerUrlBase}/?{qs.stringify(options)}`; only the zero-own-keys fast
path, `return src`, is reachable with a normal result. -/
def createOptimizedSrc (src : String) (options : JSObj) :
    Except String String × JSObj :=
  let opts := if truthy (getProp options "format")
              then setKey options "fmt" (getProp options "format")
              else options
  if (objKeys opts).length > 0 then
    (.error "ReferenceError", opts)
  else
    (.ok src, opts)

/-- The object literal `{ ...optimize, quality }` of Image.js line 305: a
fresh object spread-copied from `optimize`, with its `quality` property then
set from the shorthand (overwriting in place a `quality` key copied from
`optimize`, appending otherwise). -/
def mergeOptions (optimize : JSObj) (quality : JSVal) : JSObj :=
  setKey optimize "quality" quality

/-- Embedding of `Image.getOptimizedSrc` (Image.js lines 303-306).  Returns
the call result together with the caller `optimize` object after the call
and the fresh merged object after the call.  The spread on line 305
allocates a fresh object, so the line-91 mutation inside
`createOptimizedSrc` hits that copy and never the caller `optimize`. -/
def getOptimizedSrc (src : String) (quality : JSVal) (optimize : JSObj) :
    Except String String × JSObj × JSObj :=
  let r := createOptimizedSrc src (mergeOptions optimize quality)
  (r.1, optimize, r.2)

/-- The two per-instance state booleans of the `Image` component
(Image.js lines 181-184). -/
structure ImageState where
  loaded : Bool
  primaryNotFound : Bool
deriving DecidableEq, Repr

/-- Image.js lines 178-187: the constructor destructures `{ lazy, amp }`
from the props and sets `loaded: !lazy || amp`, `primaryNotFound: false`. -/
def initState (lazy amp : Bool) : ImageState :=
  { loaded := !lazy || amp, primaryNotFound := false }

/-- Image.js lines 293-295: `handleNotFound` sets `primaryNotFound: true`. -/
def handleNotFound (s : ImageState) : ImageState :=
  { s with primaryNotFound := true }

/-- Image.js lines 297-301: `lazyLoad` sets `loaded: true` when the state is
not yet loaded and the element became visible; otherwise it is a no-op. -/
def lazyLoad (visible : Bool) (s : ImageState) : ImageState :=
  if !s.loaded && visible then { s with loaded := true } else s

/-- Image.js lines 189-195: the post-mount synchronous check calls
`handleNotFound` when a rendered img element exists, reports `complete`,
and has `naturalWidth === 0` (an already-cached broken image). -/
def componentDidMount (imgPresent complete : Bool) (naturalWidth : Nat)
    (s : ImageState) : ImageState :=
  if imgPresent && complete && naturalWidth == 0 then handleNotFound s else s

/-- The three transition triggers delivered to an `Image` instance by the
host environment. -/
inductive ImageEvent where
  | mountCheck (imgPresent complete : Bool) (naturalWidth : Nat)
  | errorEvent
  | visibility (isVisible : Bool)
deriving DecidableEq, Repr

/-- One transition of the load state machine. -/
def step (e : ImageEvent) (s : ImageState) : ImageState :=
  match e with
  | .mountCheck p c w => componentDidMount p c w s
  | .errorEvent => handleNotFound s
  | .visibility v => lazyLoad v s

/-- A sequence of transitions, delivered in order. -/
def run (evs : List ImageEvent) (s : ImageState) : ImageState :=
  evs.foldl (fun s e => step e s) s

/-- Whether an event is one that sets `primaryNotFound` (an error event, or
a mount check that detects an already-failed image). -/
def notFoundTrigger : ImageEvent → Bool
  | .mountCheck p c w => p && c && (w == 0)
  | .errorEvent => true
  | .visibility _ => false

/-- Whether an event is a visibility event carrying `isVisible = true`. -/
def visBit : ImageEvent → Bool
  | .visibility v => v
  | _ => false

/-- The props of the `Image` component that the render path reads
(Image.js lines 197-215); `src == null` is the loose check of line 217, so
`src` is modelled as `Option String` with `none` for null or undefined.
The `aspectRatio` prop is embedded under the name `aspectRatioVal`. -/
structure ImageProps where
  src : Option String
  notFoundSrc : JSVal
  quality : JSVal
  optimize : JSObj
  contain : JSVal
  fill : JSVal
  aspectRatioVal : JSVal
  lazy : Bool
  amp : Bool
deriving DecidableEq, Repr

/-- Image.js line 221: `contain = contain || aspectRatio` — the effective
contain flag used by the rendering decision. -/
def effectiveContain (containV aVal : JSVal) : JSVal := jsOr containV aVal

/-- Image.js lines 226-228: `if (primaryNotFound && notFoundSrc) src =
notFoundSrc` — the raw `notFoundSrc` prop replaces the optimized primary
src; the optimizer is not invoked on it. -/
def applyFallback (optimized : String) (primaryNotFound : Bool)
    (notFoundSrc : JSVal) : JSVal :=
  if primaryNotFound && truthy notFoundSrc then notFoundSrc
  else JSVal.str optimized

/-- Image.js lines 283-291: `ampLayout` reads the original `contain`,
`fill` and `aspectRatio` props. -/
def ampLayout (containV fillV aVal : JSVal) : String :=
  if truthy containV || truthy fillV || truthy aVal then "fill"
  else "intrinsic"

/-- The observable shape of a successful render of the container element
(Image.js lines 230-278): the presented src, the class and layout decisions,
whether a real img element or an amp-img is in the tree, and whether the
output is wrapped in the visibility sensor. -/
structure ContainerOutput where
  presentedSrc : JSVal
  fitClassApplied : Bool
  layoutHint : Option String
  containApplied : Bool
  fillApplied : Bool
  aspectRatioPad : Bool
  ampImg : Bool
  imgRendered : Bool
  lazyWrapped : Bool
deriving DecidableEq, Repr

/-- Faithful embedding of `Image.render` (Image.js lines 197-281).
Line 217 returns null (here `Except.ok none`) when `src == null`; line 221
computes the effective contain flag; line 224 calls `getOptimizedSrc`,
whose thrown `ReferenceError` propagates out of render; lines 226-278 build
the container element. -/
def render (p : ImageProps) (s : ImageState) :
    Except String (Option ContainerOutput) :=
  match p.src with
  | none => .ok none
  | some src0 =>
    let containEff := effectiveContain p.contain p.aspectRatioVal
    match (getOptimizedSrc src0 p.quality p.optimize).1 with
    | .error e => .error e
    | .ok optimized =>
      let presented := applyFallback optimized s.primaryNotFound p.notFoundSrc
      .ok (some {
        presentedSrc := presented
        fitClassApplied :=
          !(p.aspectRatioVal == JSVal.null || p.aspectRatioVal == JSVal.undefined)
        layoutHint :=
          if p.amp then some (ampLayout p.contain p.fill p.aspectRatioVal)
          else none
        containApplied := truthy containEff
        fillApplied := truthy p.fill
        aspectRatioPad := truthy p.aspectRatioVal
        ampImg := p.amp
        imgRendered := !p.amp && s.loaded
        lazyWrapped := !p.amp && p.lazy })

theorem replaceEntry_mk (key k1 : String) (v v1 : JSVal) :
    replaceEntry key v (k1, v1) = if k1 = key then (key, v) else (k1, v1) :=
  rfl

theorem replaceEntry_idem (k : String) (v : JSVal) (p : String × JSVal) :
    replaceEntry k v (replaceEntry k v p) = replaceEntry k v p := by
  obtain ⟨k1, v1⟩ := p
  by_cases hk : k1 = k
  · subst hk
    simp [replaceEntry]
  · simp [replaceEntry, hk]

theorem getOwn_append_not_has {o : JSObj} {k : String} (v : JSVal)
    (h : hasKey o k = false) : getOwn (o ++ [(k, v)]) k = some v := by
  induction o with
  | nil => simp [getOwn]
  | cons p rest ih =>
    obtain ⟨k1, v1⟩ := p
    by_cases hk : k1 = k
    · subst hk
      simp [hasKey, getOwn] at h
    · simp only [hasKey, getOwn, hk, if_false, List.cons_append] at h ⊢
      exact ih h

theorem getOwn_map_replace (o : JSObj) (k : String) (v : JSVal) :
    getOwn (o.map (replaceEntry k v)) k =
      if hasKey o k then some v else none := by
  induction o with
  | nil => simp [getOwn, hasKey]
  | cons p rest ih =>
    obtain ⟨k1, v1⟩ := p
    by_cases hk : k1 = k
    · subst hk
      rw [List.map_cons, replaceEntry_mk, if_pos rfl]
      simp [getOwn, hasKey]
    · rw [List.map_cons, replaceEntry_mk, if_neg hk]
      simp only [getOwn, hasKey, hk, if_false]
      simpa [hasKey] using ih

theorem getOwn_map_replace_ne (o : JSObj) {k k2 : String} (v : JSVal)
    (h : k2 ≠ k) :
    getOwn (o.map (replaceEntry k v)) k2 = getOwn o k2 := by
  induction o with
  | nil => rfl
  | cons p rest ih =>
    obtain ⟨k1, v1⟩ := p
    by_cases hk : k1 = k
    · subst hk
      rw [List.map_cons, replaceEntry_mk, if_pos rfl]
      have hne : ¬ k1 = k2 := fun hh => h hh.symm
      simp [getOwn, hne, ih]
    · rw [List.map_cons, replaceEntry_mk, if_neg hk]
      simp [getOwn, ih]

theorem getOwn_setKey_self (o : JSObj) (k : String) (v : JSVal) :
    getOwn (setKey o k v) k = some v := by
  unfold setKey
  by_cases h : hasKey o k = true
  · simp [h, getOwn_map_replace]
  · simp only [h, Bool.false_eq_true, if_false]
    simp only [Bool.not_eq_true] at h
    exact getOwn_append_not_has v h

theorem getOwn_append_ne {o : JSObj} {k k2 : String} (v : JSVal)
    (h : k2 ≠ k) : getOwn (o ++ [(k, v)]) k2 = getOwn o k2 := by
  induction o with
  | nil =>
    have hne : ¬ k = k2 := fun hh => h hh.symm
    simp [getOwn, hne]
  | cons p rest ih =>
    obtain ⟨k1, v1⟩ := p
    by_cases hk : k1 = k2 <;> simp [getOwn, hk, ih]

theorem getOwn_setKey_ne (o : JSObj) {k k2 : String} (v : JSVal)
    (h : k2 ≠ k) : getOwn (setKey o k v) k2 = getOwn o k2 := by
  unfold setKey
  by_cases hh : hasKey o k = true
  · simp [hh, getOwn_map_replace_ne o v h]
  · simp only [hh, Bool.false_eq_true, if_false]
    exact getOwn_append_ne v h

theorem getProp_setKey_ne (o : JSObj) {k k2 : String} (v : JSVal)
    (h : k2 ≠ k) : getProp (setKey o k v) k2 = getProp o k2 := by
  simp [getProp, getOwn_setKey_ne o v h]

theorem hasKey_ne_nil {o : JSObj} {k : String} (h : hasKey o k = true) :
    o ≠ [] := by
  intro he
  subst he
  simp [hasKey, getOwn] at h

theorem setKey_ne_nil (o : JSObj) (k : String) (v : JSVal) :
    setKey o k v ≠ [] := by
  unfold setKey
  by_cases h : hasKey o k = true
  · simp only [h, if_true]
    have := hasKey_ne_nil h
    intro hmap
    exact this (List.map_eq_nil_iff.mp hmap)
  · simp [h]

theorem objKeys_pos {o : JSObj} (h : o ≠ []) : 0 < (objKeys o).length := by
  cases o with
  | nil => exact absurd rfl h
  | cons p rest => simp [objKeys]

theorem map_replace_of_not_has {o : JSObj} {k : String} (v : JSVal)
    (h : hasKey o k = false) : o.map (replaceEntry k v) = o := by
  induction o with
  | nil => rfl
  | cons p rest ih =>
    obtain ⟨k1, v1⟩ := p
    by_cases hk : k1 = k
    · subst hk
      simp [hasKey, getOwn] at h
    · simp only [hasKey, getOwn, hk, if_false] at h
      rw [List.map_cons, replaceEntry_mk, if_neg hk, ih h]

theorem map_replace_idem (o : JSObj) (k : String) (v : JSVal) :
    (o.map (replaceEntry k v)).map (replaceEntry k v) =
      o.map (replaceEntry k v) := by
  induction o with
  | nil => rfl
  | cons p rest ih => simp only [List.map_cons, replaceEntry_idem, ih]

theorem setKey_setKey_self (o : JSObj) (k : String) (v : JSVal) :
    setKey (setKey o k v) k v = setKey o k v := by
  have h2 : hasKey (setKey o k v) k = true := by
    simp [hasKey, getOwn_setKey_self]
  by_cases h : hasKey o k = true
  · have h1 : setKey o k v = o.map (replaceEntry k v) := by
      simp [setKey, h]
    rw [h1] at h2 ⊢
    simp only [setKey, h2, if_true]
    exact map_replace_idem o k v
  · have h0 : hasKey o k = false := by simpa using h
    have h1 : setKey o k v = o ++ [(k, v)] := by simp [setKey, h0]
    rw [h1] at h2 ⊢
    simp only [setKey, h2, if_true, List.map_append]
    rw [map_replace_of_not_has v h0]
    simp [replaceEntry_mk]

theorem hasKey_of_truthy {o : JSObj} {k : String}
    (h : truthy (getProp o k) = true) : hasKey o k = true := by
  unfold getProp at h
  unfold hasKey
  cases hg : getOwn o k with
  | none => rw [hg] at h; simp [truthy] at h
  | some v => simp

theorem createOptimizedSrc_nil (src : String) :
    createOptimizedSrc src [] = (Except.ok src, []) := rfl

theorem createOptimizedSrc_eq_of_truthy (src : String) (o : JSObj)
    (hf : truthy (getProp o "format") = true) :
    createOptimizedSrc src o =
      (Except.error "ReferenceError",
        setKey o "fmt" (getProp o "format")) := by
  have hpos := objKeys_pos (setKey_ne_nil o "fmt" (getProp o "format"))
  simp [createOptimizedSrc, hf, hpos]

theorem createOptimizedSrc_eq_of_falsy_nonempty (src : String) (o : JSObj)
    (hf : truthy (getProp o "format") = false) (h : o ≠ []) :
    createOptimizedSrc src o = (Except.error "ReferenceError", o) := by
  have hpos := objKeys_pos h
  simp [createOptimizedSrc, hf, hpos]

theorem createOptimizedSrc_fst_error (src : String) {o : JSObj}
    (h : o ≠ []) :
    (createOptimizedSrc src o).1 = Except.error "ReferenceError" := by
  by_cases hf : truthy (getProp o "format") = true
  · rw [createOptimizedSrc_eq_of_truthy src o hf]
  · rw [createOptimizedSrc_eq_of_falsy_nonempty src o (by simpa using hf) h]

theorem getOptimizedSrc_fst_error (src : String) (q : JSVal) (o : JSObj) :
    (getOptimizedSrc src q o).1 = Except.error "ReferenceError" := by
  unfold getOptimizedSrc
  exact createOptimizedSrc_fst_error src (setKey_ne_nil o "quality" q)

theorem step_loaded (e : ImageEvent) (s : ImageState) :
    (step e s).loaded = (s.loaded || visBit e) := by
  cases e with
  | mountCheck p c w =>
    simp only [step, componentDidMount, visBit]
    split <;> simp [handleNotFound]
  | errorEvent => simp [step, handleNotFound, visBit]
  | visibility v =>
    simp only [step, lazyLoad, visBit]
    cases hl : s.loaded <;> cases v <;> simp [hl]

theorem step_primaryNotFound (e : ImageEvent) (s : ImageState) :
    (step e s).primaryNotFound =
      (s.primaryNotFound || notFoundTrigger e) := by
  cases e with
  | mountCheck p c w =>
    simp only [step, componentDidMount, notFoundTrigger]
    split <;> rename_i hcond <;> simp_all [handleNotFound]
  | errorEvent => simp [step, handleNotFound, notFoundTrigger]
  | visibility v =>
    simp only [step, lazyLoad, notFoundTrigger]
    split <;> simp

theorem run_loaded_of_loaded (evs : List ImageEvent) (s : ImageState)
    (h : s.loaded = true) : (run evs s).loaded = true := by
  induction evs generalizing s with
  | nil => exact h
  | cons e rest ih =>
    exact ih (step e s) (by rw [step_loaded, h, Bool.true_or])

theorem run_primaryNotFound_of_primaryNotFound (evs : List ImageEvent)
    (s : ImageState) (h : s.primaryNotFound = true) :
    (run evs s).primaryNotFound = true := by
  induction evs generalizing s with
  | nil => exact h
  | cons e rest ih =>
    exact ih (step e s) (by rw [step_primaryNotFound, h, Bool.true_or])

theorem render_error_of_some {p : ImageProps} {s : ImageState}
    {src0 : String} (h : p.src = some src0) :
    render p s = Except.error "ReferenceError" := by
  have hg := getOptimizedSrc_fst_error src0 p.quality p.optimize
  simp [render, h, hg]

/-- C1: the claim states that `createOptimizedSrc` terminates without an
exception for every input and, for options with at least one own key such
as quality 80 and width 200, returns the base URL followed by slash,
question mark and the serialized query string.  The code instead throws a
ReferenceError for every such options object, because line 94 declares a
block-scoped constant named options whose initializer reads that same
still-uninitialized binding.  This theorem evaluates the embedded code at
the failing input: the result is the error, not a URL string. -/
theorem C1_nonempty_options_throw :
    createOptimizedSrc "https://x/a.jpg"
        [("quality", JSVal.num 80), ("width", JSVal.num 200)] =
      (Except.error "ReferenceError",
        [("quality", JSVal.num 80), ("width", JSVal.num 200)]) := rfl

/-- C2 counterexample: the claim says the fast path (return src unchanged)
applies to the per-render call with quality null and optimize empty.  The
per-render merge produces the one-key object with quality bound to null,
so the zero-own-keys test fails and the call throws instead of returning
src. -/
theorem C2_per_render_merge_defeats_fast_path :
    (getOptimizedSrc "a.jpg" JSVal.null []).1 =
        Except.error "ReferenceError" ∧
    (getOptimizedSrc "a.jpg" JSVal.null []).1 ≠ Except.ok "a.jpg" :=
  ⟨rfl, fun h => Except.noConfusion h⟩

/-- C2 (amended): `createOptimizedSrc` returns src unchanged exactly for an
options object with zero own keys; an explicit quality key, even bound to
null, counts as an own key, so the per-render call, which always merges the
quality prop into the options, never reaches the fast path, and as written
it throws a ReferenceError. -/
theorem C2_fast_path_requires_zero_own_keys (src : String) (o : JSObj)
    (q : JSVal) :
    createOptimizedSrc src [] = (Except.ok src, []) ∧
    (createOptimizedSrc src (mergeOptions o q)).1 =
      Except.error "ReferenceError" :=
  ⟨rfl, createOptimizedSrc_fst_error src (setKey_ne_nil o "quality" q)⟩

/-- C3 counterexample: the claim says the query string contains fmt and
never format.  With format set, the call throws before any query string is
produced, and the object that line 95 would serialize still carries the
original format key next to the copied fmt key. -/
theorem C3_format_key_kept_and_call_throws :
    createOptimizedSrc "a.jpg" [("format", JSVal.str "webp")] =
      (Except.error "ReferenceError",
        [("format", JSVal.str "webp"), ("fmt", JSVal.str "webp")]) ∧
    hasKey (createOptimizedSrc "a.jpg" [("format", JSVal.str "webp")]).2
        "format" = true :=
  ⟨rfl, rfl⟩

/-- C3 (amended): whenever the format option is truthy, line 91 copies its
value into a new fmt key on the options object but never deletes the
original format key, so the object headed for serialization carries both
keys; and as written the call then throws a ReferenceError before any
query string is produced. -/
theorem C3_fmt_copied_format_retained (src : String) (o : JSObj)
    (h : truthy (getProp o "format") = true) :
    (createOptimizedSrc src o).1 = Except.error "ReferenceError" ∧
    getOwn (createOptimizedSrc src o).2 "fmt" =
      some (getProp o "format") ∧
    getOwn (createOptimizedSrc src o).2 "format" = getOwn o "format" ∧
    hasKey (createOptimizedSrc src o).2 "format" = true := by
  have heq := createOptimizedSrc_eq_of_truthy src o h
  have hkf : hasKey o "format" = true := hasKey_of_truthy h
  refine ⟨?_, ?_, ?_, ?_⟩
  · rw [heq]
  · rw [heq]
    exact getOwn_setKey_self o "fmt" (getProp o "format")
  · rw [heq]
    exact getOwn_setKey_ne o _ (by decide)
  · rw [heq]
    unfold hasKey
    rw [getOwn_setKey_ne o _ (by decide)]
    exact hkf

/-- C3 witness: the amended statement instantiated at a concrete options
object carrying format webp. -/
theorem C3_witness :
    truthy (getProp [("format", JSVal.str "webp")] "format") = true ∧
    ((createOptimizedSrc "a.jpg" [("format", JSVal.str "webp")]).1 =
        Except.error "ReferenceError" ∧
      getOwn (createOptimizedSrc "a.jpg"
          [("format", JSVal.str "webp")]).2 "fmt" =
        some (getProp [("format", JSVal.str "webp")] "format") ∧
      getOwn (createOptimizedSrc "a.jpg"
          [("format", JSVal.str "webp")]).2 "format" =
        getOwn [("format", JSVal.str "webp")] "format" ∧
      hasKey (createOptimizedSrc "a.jpg"
          [("format", JSVal.str "webp")]).2 "format" = true) :=
  ⟨by decide, C3_fmt_copied_format_retained "a.jpg" _ (by decide)⟩

/-- C4 counterexample: the claim says the options argument is left
unchanged by the call.  With format set, line 91 adds a fmt key to the
caller object, so after the call the object differs from its original
value. -/
theorem C4_format_option_mutated :
    (createOptimizedSrc "a.jpg" [("format", JSVal.str "webp")]).2 ≠
      [("format", JSVal.str "webp")] := by decide

/-- C4 (amended): `createOptimizedSrc` mutates its options argument exactly
when the format option is truthy, adding or overwriting the single fmt key
with the format value; with format absent or falsy the object is left
unchanged; and a second call on the same (possibly already mutated) object
returns an identical result and leaves the object as the first call left
it. -/
theorem C4_mutation_scope_and_idempotence (src : String) (o : JSObj) :
    (truthy (getProp o "format") = false →
      (createOptimizedSrc src o).2 = o) ∧
    (truthy (getProp o "format") = true →
      (createOptimizedSrc src o).2 =
        setKey o "fmt" (getProp o "format")) ∧
    createOptimizedSrc src (createOptimizedSrc src o).2 =
      createOptimizedSrc src o := by
  refine ⟨?_, ?_, ?_⟩
  · intro hff
    by_cases ho : o = []
    · subst ho; rfl
    · rw [createOptimizedSrc_eq_of_falsy_nonempty src o hff ho]
  · intro hf
    rw [createOptimizedSrc_eq_of_truthy src o hf]
  · by_cases hf : truthy (getProp o "format") = true
    · have h1 := createOptimizedSrc_eq_of_truthy src o hf
      have hfot : truthy (getProp (setKey o "fmt" (getProp o "format"))
          "format") = true := by
        rw [getProp_setKey_ne o _ (by decide)]
        exact hf
      have h2 := createOptimizedSrc_eq_of_truthy src
        (setKey o "fmt" (getProp o "format")) hfot
      calc createOptimizedSrc src (createOptimizedSrc src o).2
          = createOptimizedSrc src (setKey o "fmt" (getProp o "format")) :=
            by rw [h1]
        _ = (Except.error "ReferenceError",
              setKey (setKey o "fmt" (getProp o "format")) "fmt"
                (getProp (setKey o "fmt" (getProp o "format")) "format")) :=
            h2
        _ = (Except.error "ReferenceError",
              setKey o "fmt" (getProp o "format")) := by
            rw [getProp_setKey_ne o _ (by decide), setKey_setKey_self]
        _ = createOptimizedSrc src o := h1.symm
    · have hf2 : truthy (getProp o "format") = false := by simpa using hf
      have hsnd : (createOptimizedSrc src o).2 = o := by
        by_cases ho : o = []
        · subst ho; rfl
        · rw [createOptimizedSrc_eq_of_falsy_nonempty src o hf2 ho]
      rw [hsnd]

/-- C4 witness: the amended statement instantiated at concrete inputs, one
without format (object unchanged) and one with format (second call agrees
with the first). -/
theorem C4_witness :
    (createOptimizedSrc "a.jpg" [("quality", JSVal.num 80)]).2 =
        [("quality", JSVal.num 80)] ∧
    createOptimizedSrc "a.jpg"
        (createOptimizedSrc "a.jpg" [("format", JSVal.str "webp")]).2 =
      createOptimizedSrc "a.jpg" [("format", JSVal.str "webp")] :=
  ⟨(C4_mutation_scope_and_idempotence "a.jpg"
      [("quality", JSVal.num 80)]).1 (by decide),
   (C4_mutation_scope_and_idempotence "a.jpg"
      [("format", JSVal.str "webp")]).2.2⟩

/-- C5 counterexample: the claim says that whenever primaryNotFound is true
and notFoundSrc is set, the src presented to the image element is computed
by calling the URL Optimizer on the fallback source.  At this concrete
input the render throws before any src is presented; and the substitution
step of lines 226-228 (embedded as `applyFallback`) returns the raw
notFoundSrc value regardless of the optimizer output it is handed. -/
theorem C5_fallback_not_optimized_counterexample :
    render { src := some "a.jpg", notFoundSrc := JSVal.str "nf.jpg",
             quality := JSVal.null, optimize := [],
             contain := JSVal.bool false, fill := JSVal.bool false,
             aspectRatioVal := JSVal.null, lazy := false, amp := false }
        { loaded := true, primaryNotFound := true } =
      Except.error "ReferenceError" ∧
    applyFallback "opt1" true (JSVal.str "nf.jpg") = JSVal.str "nf.jpg" ∧
    applyFallback "opt2" true (JSVal.str "nf.jpg") = JSVal.str "nf.jpg" :=
  ⟨rfl, rfl, rfl⟩

/-- C5 (amended): the render path calls the URL Optimizer only on the
primary src; when primaryNotFound is true and notFoundSrc is truthy, the
raw notFoundSrc replaces the optimized primary src without invoking the
optimizer (the substitution result does not depend on the optimizer
output); moreover, as the code stands, render throws a ReferenceError at
the primary optimization call before the substitution, for every props
object whose src is set. -/
theorem C5_fallback_uses_raw_notFoundSrc (optimized other : String)
    (nfs : JSVal) (p : ImageProps) (s : ImageState) (src0 : String)
    (hn : truthy nfs = true) (hsrc : p.src = some src0) :
    applyFallback optimized true nfs = nfs ∧
    applyFallback optimized true nfs = applyFallback other true nfs ∧
    render p s = Except.error "ReferenceError" := by
  have h1 : applyFallback optimized true nfs = nfs := by
    simp [applyFallback, hn]
  have h2 : applyFallback other true nfs = nfs := by
    simp [applyFallback, hn]
  exact ⟨h1, h1.trans h2.symm, render_error_of_some hsrc⟩

/-- C5 witness: the amended statement instantiated at a concrete fallback
source and concrete props. -/
theorem C5_witness :
    applyFallback "opt1" true (JSVal.str "nf.jpg") = JSVal.str "nf.jpg" ∧
    applyFallback "opt1" true (JSVal.str "nf.jpg") =
      applyFallback "opt2" true (JSVal.str "nf.jpg") ∧
    render { src := some "b.jpg", notFoundSrc := JSVal.str "nf.jpg",
             quality := JSVal.null, optimize := [],
             contain := JSVal.bool false, fill := JSVal.bool false,
             aspectRatioVal := JSVal.null, lazy := false, amp := false }
        { loaded := true, primaryNotFound := true } =
      Except.error "ReferenceError" :=
  C5_fallback_uses_raw_notFoundSrc "opt1" "opt2" (JSVal.str "nf.jpg")
    _ _ "b.jpg" (by decide) rfl

/-- C6: with lazy true and ampMode false the initial loaded state is false;
after one visibility event with isVisible true, loaded is true; and loaded
remains true after every further sequence of events, including visibility
false events — a monotonic false-to-true latch. -/
theorem C6_lazy_visibility_latch (evs : List ImageEvent) :
    (initState true false).loaded = false ∧
    (step (ImageEvent.visibility true) (initState true false)).loaded =
      true ∧
    (run evs
        (step (ImageEvent.visibility true) (initState true false))).loaded =
      true :=
  ⟨rfl, rfl, run_loaded_of_loaded evs _ rfl⟩

/-- C7: after one error event primaryNotFound is true; a second error event
leaves the state unchanged; every single transition can only preserve or
raise primaryNotFound (it equals the old value or-ed with the trigger bit,
so no transition resets it); and after an error event it stays true under
every further event sequence. -/
theorem C7_primaryNotFound_latch (s : ImageState) (e : ImageEvent)
    (evs : List ImageEvent) :
    (step ImageEvent.errorEvent s).primaryNotFound = true ∧
    step ImageEvent.errorEvent (step ImageEvent.errorEvent s) =
      step ImageEvent.errorEvent s ∧
    (step e s).primaryNotFound =
      (s.primaryNotFound || notFoundTrigger e) ∧
    (run evs (step ImageEvent.errorEvent s)).primaryNotFound = true :=
  ⟨rfl, rfl, step_primaryNotFound e s,
    run_primaryNotFound_of_primaryNotFound evs _ rfl⟩

/-- C8: in the rendering decision of line 221 the effective contain flag is
the JavaScript or of the contain prop and the aspectRatio prop, so whenever
an aspect ratio is specified (truthy), the contain flag is truthy
independently of the explicit contain prop. -/
theorem C8_aspectRatio_forces_contain (c a : JSVal)
    (h : truthy a = true) : truthy (effectiveContain c a) = true := by
  unfold effectiveContain jsOr
  by_cases hc : truthy c = true
  · rw [if_pos hc]; exact hc
  · rw [if_neg hc]; exact h

/-- C8 witness: aspectRatio 50 with contain false still yields a truthy
contain flag. -/
theorem C8_witness :
    truthy (JSVal.num 50) = true ∧
    truthy (effectiveContain (JSVal.bool false) (JSVal.num 50)) = true :=
  ⟨by decide,
    C8_aspectRatio_forces_contain (JSVal.bool false) (JSVal.num 50)
      (by decide)⟩

/-- C9: `getOptimizedSrc` passes the fresh spread copy of the optimize prop
to `createOptimizedSrc`, so the caller optimize object is unchanged by the
call for every src, quality and optimize, while (second conjunct) the fresh
merged copy itself is mutated when optimize.format is set — the line-91
mutation lands on the copy, never on the prop. -/
theorem C9_caller_optimize_unchanged (src : String) (q : JSVal)
    (o : JSObj) :
    (getOptimizedSrc src q o).2.1 = o ∧
    (getOptimizedSrc "a.jpg" JSVal.null
        [("format", JSVal.str "webp")]).2.2 ≠
      mergeOptions [("format", JSVal.str "webp")] JSVal.null :=
  ⟨rfl, by decide⟩

/-- C10: render returns empty output (ok none) when the src prop is null or
undefined; for every other src value, including the empty string, the
render proceeds past the line-217 null check — but, as the code stands, it
then throws a ReferenceError inside getOptimizedSrc instead of producing
the container element. -/
theorem C10_render_nothing_iff_src_null (p : ImageProps) (s : ImageState) :
    (p.src = none → render p s = Except.ok none) ∧
    (∀ src0 : String, p.src = some src0 →
      render p s = Except.error "ReferenceError") := by
  constructor
  · intro h
    simp [render, h]
  · intro src0 h
    exact render_error_of_some h

/-- C10 witness: a null src renders nothing; the empty-string src proceeds
past the null check and the render throws. -/
theorem C10_witness :
    render { src := none, notFoundSrc := JSVal.undefined,
             quality := JSVal.null, optimize := [],
             contain := JSVal.bool false, fill := JSVal.bool false,
             aspectRatioVal := JSVal.null, lazy := false, amp := false }
        { loaded := true, primaryNotFound := false } = Except.ok none ∧
    render { src := some "", notFoundSrc := JSVal.undefined,
             quality := JSVal.null, optimize := [],
             contain := JSVal.bool false, fill := JSVal.bool false,
             aspectRatioVal := JSVal.null, lazy := false, amp := false }
        { loaded := true, primaryNotFound := false } =
      Except.error "ReferenceError" :=
  ⟨(C10_render_nothing_iff_src_null _ _).1 rfl,
   (C10_render_nothing_iff_src_null _ _).2 "" rfl⟩
